import Mathlib

/-!
Verification of the GPU validation module (`gpu-validation-module.py`).

The module runs `oc` commands through a single gateway (`run_command`),
parses their JSON output, and records per-probe results in the
`validation_results` dictionary.  We embed the probe methods of
`GPUValidator` as pure Lean functions of the gateway responses.

Python-side semantics that the probes rely on (JSON values, `dict.get`,
truthiness, `int(...)`, string containment, `json.loads`) are modelled
explicitly below.  Exceptions are modelled with `Except PyErr`; the
`except json.JSONDecodeError` handlers in the source catch exactly the
`jsonDecodeError` constructor.
-/

/-- Python exceptions that can arise in the probe bodies. -/
inductive PyErr where
  | jsonDecodeError
  | valueError
  | typeError
  | attributeError
  | keyError
  | indexError
  deriving Repr, DecidableEq

/-- Parsed JSON values, as produced by `json.loads`.  Numbers with a
fractional part or exponent (and the nonstandard `NaN`/`Infinity`
tokens Python accepts) are kept opaque as `jfloat` of their raw text:
the probes never compute with them. -/
inductive JVal where
  | jnull
  | jbool (b : Bool)
  | jnum (n : Int)
  | jfloat (raw : String)
  | jstr (s : String)
  | jarr (xs : List JVal)
  | jobj (fields : List (String × JVal))

namespace JVal

/-- Decidable equality, written by hand because of the nested `List`. -/
def beq : JVal → JVal → Bool
  | .jnull, .jnull => true
  | .jbool a, .jbool b => a = b
  | .jnum a, .jnum b => a = b
  | .jfloat a, .jfloat b => a = b
  | .jstr a, .jstr b => a = b
  | .jarr xs, .jarr ys => beqList xs ys
  | .jobj xs, .jobj ys => beqFields xs ys
  | _, _ => false
where
  beqList : List JVal → List JVal → Bool
    | [], [] => true
    | x :: xs, y :: ys => beq x y && beqList xs ys
    | _, _ => false
  beqFields : List (String × JVal) → List (String × JVal) → Bool
    | [], [] => true
    | (k, x) :: xs, (l, y) :: ys => k = l && beq x y && beqFields xs ys
    | _, _ => false

mutual

def beq_eq : ∀ a b : JVal, beq a b = true → a = b
  | .jnull, .jnull, _ => rfl
  | .jbool _, .jbool _, h => by
      simp only [beq, decide_eq_true_eq] at h; rw [h]
  | .jnum _, .jnum _, h => by
      simp only [beq, decide_eq_true_eq] at h; rw [h]
  | .jfloat _, .jfloat _, h => by
      simp only [beq, decide_eq_true_eq] at h; rw [h]
  | .jstr _, .jstr _, h => by
      simp only [beq, decide_eq_true_eq] at h; rw [h]
  | .jarr _, .jarr _, h => by
      simp only [beq] at h
      rw [beqList_eq _ _ h]
  | .jobj _, .jobj _, h => by
      simp only [beq] at h
      rw [beqFields_eq _ _ h]

def beqList_eq : ∀ xs ys : List JVal, beq.beqList xs ys = true → xs = ys
  | [], [], _ => rfl
  | x :: xs, y :: ys, h => by
      simp only [beq.beqList, Bool.and_eq_true] at h
      rw [beq_eq x y h.1, beqList_eq xs ys h.2]

def beqFields_eq : ∀ xs ys : List (String × JVal),
    beq.beqFields xs ys = true → xs = ys
  | [], [], _ => rfl
  | (k, x) :: xs, (l, y) :: ys, h => by
      simp only [beq.beqFields, Bool.and_eq_true, decide_eq_true_eq] at h
      rw [h.1.1, beq_eq x y h.1.2, beqFields_eq xs ys h.2]

end

mutual

def beq_refl : ∀ a : JVal, beq a a = true
  | .jnull => rfl
  | .jbool _ => by simp [beq]
  | .jnum _ => by simp [beq]
  | .jfloat _ => by simp [beq]
  | .jstr _ => by simp [beq]
  | .jarr xs => by simp only [beq]; exact beqList_refl xs
  | .jobj fs => by simp only [beq]; exact beqFields_refl fs

def beqList_refl : ∀ xs : List JVal, beq.beqList xs xs = true
  | [] => rfl
  | x :: xs => by
      simp only [beq.beqList, Bool.and_eq_true]
      exact ⟨beq_refl x, beqList_refl xs⟩

def beqFields_refl : ∀ xs : List (String × JVal), beq.beqFields xs xs = true
  | [] => rfl
  | (k, x) :: xs => by
      simp only [beq.beqFields, Bool.and_eq_true, decide_eq_true_eq, and_true,
        eq_self_iff_true, true_and]
      exact ⟨beq_refl x, beqFields_refl xs⟩

end

instance : DecidableEq JVal := fun a b =>
  if h : beq a b = true then .isTrue (beq_eq a b h)
  else .isFalse (fun he => h (he ▸ beq_refl a))

/-- `v.get(key, default)` on a Python value: only dicts have `.get`;
anything else raises `AttributeError`.  `json.loads` keeps the last of
duplicate keys, and the parser below already deduplicates, so a plain
first-match lookup is used. -/
def pyGet : JVal → String → JVal → Except PyErr JVal
  | .jobj fs, k, d =>
      .ok (match fs.find? (fun p => p.1 = k) with
            | some p => p.2
            | none => d)
  | _, _, _ => .error .attributeError

/-- Python truthiness of a parsed JSON value. -/
def truthy : JVal → Bool
  | .jnull => false
  | .jbool b => b
  | .jnum n => n ≠ 0
  | .jfloat raw => raw ≠ "0.0"
  | .jstr s => s ≠ ""
  | .jarr xs => ¬xs.isEmpty
  | .jobj fs => ¬fs.isEmpty

/-- Iterating a value with `for x in v`: lists yield elements, strings
yield their characters (as one-character strings); other values raise
`TypeError`. -/
def pyIter : JVal → Except PyErr (List JVal)
  | .jarr xs => .ok xs
  | .jstr s => .ok (s.toList.map (fun c => .jstr (String.singleton c)))
  | _ => .error .typeError

/-- A value used where a `str` method (`.lower()`, `.split()`) is
called: non-strings raise `AttributeError`. -/
def asStr : JVal → Except PyErr String
  | .jstr s => .ok s
  | _ => .error .attributeError

/-- `v == lit` for a string literal `lit`: in Python this is `False`
(never an error) when `v` is not a string. -/
def eqStr : JVal → String → Bool
  | .jstr s, t => s = t
  | _, _ => false

/-- `v == n` for an int literal `n`; Python treats `True`/`False` as
`1`/`0`. -/
def eqInt : JVal → Int → Bool
  | .jnum m, n => m = n
  | .jbool b, n => (if b then (1 : Int) else 0) = n
  | _, _ => false

end JVal

/-- Python `int(s)` on a string: optional surrounding whitespace, an
optional sign, then at least one ASCII digit. -/
def pyIntOfString (s : String) : Option Int :=
  let cs := s.toList.dropWhile Char.isWhitespace
  let cs := (cs.reverse.dropWhile Char.isWhitespace).reverse
  let (neg, ds) :=
    match cs with
    | '-' :: rest => (true, rest)
    | '+' :: rest => (false, rest)
    | rest => (false, rest)
  if ds = [] ∨ ¬ds.all Char.isDigit then none
  else
    let n := ds.foldl (fun acc c => acc * 10 + (c.toNat - '0'.toNat)) 0
    some (if neg then -(n : Int) else (n : Int))

namespace JVal

/-- Python `int(v)` on a parsed JSON value. -/
def pyInt : JVal → Except PyErr Int
  | .jnum n => .ok n
  | .jbool b => .ok (if b then 1 else 0)
  | .jstr s =>
      match pyIntOfString s with
      | some n => .ok n
      | none => .error .valueError
  | _ => .error .typeError

end JVal

/-! ### A model of `json.loads`

A recursive-descent parser for the JSON grammar Python's `json.loads`
accepts in its default strict mode: the standard grammar plus the
nonstandard `NaN` / `Infinity` / `-Infinity` tokens.  Numbers with a
fractional part or exponent become `jfloat`; duplicate object keys
keep the last value, as in Python.  (Python's recursion limit on very
deeply nested input is not modelled.) -/

namespace PyJson

def isWs (c : Char) : Bool := c = ' ' ∨ c = '\t' ∨ c = '\n' ∨ c = '\r'

def skipWs (cs : List Char) : List Char := cs.dropWhile isWs

def hexVal (c : Char) : Option Nat :=
  if '0' ≤ c ∧ c ≤ '9' then some (c.toNat - '0'.toNat)
  else if 'a' ≤ c ∧ c ≤ 'f' then some (c.toNat - 'a'.toNat + 10)
  else if 'A' ≤ c ∧ c ≤ 'F' then some (c.toNat - 'A'.toNat + 10)
  else none

/-- Parse the body of a JSON string after the opening quote; returns
the decoded content and the input after the closing quote. -/
def parseStringBody : Nat → List Char → Option (String × List Char)
  | 0, _ => none
  | _, [] => none
  | fuel + 1, c :: rest =>
    if c = '"' then some ("", rest)
    else if c = '\\' then
      match rest with
      | [] => none
      | e :: rest2 =>
        let esc : Option Char :=
          if e = '"' then some '"'
          else if e = '\\' then some '\\'
          else if e = '/' then some '/'
          else if e = 'b' then some (Char.ofNat 8)
          else if e = 'f' then some (Char.ofNat 12)
          else if e = 'n' then some '\n'
          else if e = 'r' then some '\r'
          else if e = 't' then some '\t'
          else none
        match esc with
        | some ch =>
            (parseStringBody fuel rest2).map
              (fun p => (String.singleton ch ++ p.1, p.2))
        | none =>
            if e = 'u' then
              match rest2 with
              | h1 :: h2 :: h3 :: h4 :: rest3 =>
                  match hexVal h1, hexVal h2, hexVal h3, hexVal h4 with
                  | some a, some b, some c, some d =>
                      (parseStringBody fuel rest3).map
                        (fun p =>
                          (String.singleton
                              (Char.ofNat (a * 4096 + b * 256 + c * 16 + d)) ++
                            p.1, p.2))
                  | _, _, _, _ => none
              | _ => none
            else none
    else if c.toNat < 32 then none
    else (parseStringBody fuel rest).map (fun p => (String.singleton c ++ p.1, p.2))

/-- Fraction part `.digits` (possibly absent); fails on a bare dot. -/
def parseFrac : List Char → Option (List Char × List Char)
  | '.' :: r =>
      match r.span Char.isDigit with
      | ([], _) => none
      | (ds, r2) => some ('.' :: ds, r2)
  | r => some ([], r)

/-- Exponent part `e[+-]digits` (possibly absent). -/
def parseExp : List Char → Option (List Char × List Char)
  | [] => some ([], [])
  | e :: r =>
      if e = 'e' ∨ e = 'E' then
        let (sgn, r1) : List Char × List Char :=
          match r with
          | '+' :: t => (['+'], t)
          | '-' :: t => (['-'], t)
          | t => ([], t)
        match r1.span Char.isDigit with
        | ([], _) => none
        | (ds, r2) => some (e :: (sgn ++ ds), r2)
      else some ([], e :: r)

/-- Parse a JSON number starting at the current position. -/
def parseNumber (cs : List Char) : Option (JVal × List Char) :=
  let (neg, cs1) : Bool × List Char :=
    match cs with
    | '-' :: r => (true, r)
    | r => (false, r)
  match cs1.span Char.isDigit with
  | ([], _) => none
  | (intPart, cs2) =>
    if 1 < intPart.length ∧ intPart.head? = some '0' then none
    else
      match parseFrac cs2 with
      | none => none
      | some (frac, cs3) =>
        match parseExp cs3 with
        | none => none
        | some (expo, cs4) =>
          if frac = [] ∧ expo = [] then
            let n := intPart.foldl (fun acc c => acc * 10 + (c.toNat - '0'.toNat)) 0
            some (.jnum (if neg then -(n : Int) else (n : Int)), cs4)
          else
            some (.jfloat (String.mk ((if neg then ['-'] else []) ++ intPart ++ frac ++ expo)), cs4)

/-- Insert a key into an object under construction, Python-dict style:
an existing key keeps its position but gets the new value. -/
def insertKV (fs : List (String × JVal)) (k : String) (v : JVal) :
    List (String × JVal) :=
  if fs.any (fun p => p.1 = k) then
    fs.map (fun p => if p.1 = k then (k, v) else p)
  else fs ++ [(k, v)]

mutual

def parseValue : Nat → List Char → Option (JVal × List Char)
  | 0, _ => none
  | fuel + 1, cs =>
    match skipWs cs with
    | [] => none
    | c :: rest =>
      if c = '"' then
        (parseStringBody (rest.length + 1) rest).map (fun p => (.jstr p.1, p.2))
      else if c = '{' then
        match skipWs rest with
        | '}' :: r => some (.jobj [], r)
        | r => parseMembers fuel r []
      else if c = '[' then
        match skipWs rest with
        | ']' :: r => some (.jarr [], r)
        | r => parseElements fuel r []
      else if List.isPrefixOf "true".toList (c :: rest) then
        some (.jbool true, (c :: rest).drop 4)
      else if List.isPrefixOf "false".toList (c :: rest) then
        some (.jbool false, (c :: rest).drop 5)
      else if List.isPrefixOf "null".toList (c :: rest) then
        some (.jnull, (c :: rest).drop 4)
      else if List.isPrefixOf "NaN".toList (c :: rest) then
        some (.jfloat "nan", (c :: rest).drop 3)
      else if List.isPrefixOf "Infinity".toList (c :: rest) then
        some (.jfloat "inf", (c :: rest).drop 8)
      else if List.isPrefixOf "-Infinity".toList (c :: rest) then
        some (.jfloat "-inf", (c :: rest).drop 9)
      else parseNumber (c :: rest)

def parseMembers : Nat → List Char → List (String × JVal) →
    Option (JVal × List Char)
  | 0, _, _ => none
  | fuel + 1, cs, acc =>
    match skipWs cs with
    | '"' :: r =>
      match parseStringBody (r.length + 1) r with
      | none => none
      | some (k, r1) =>
        match skipWs r1 with
        | ':' :: r2 =>
          match parseValue fuel r2 with
          | none => none
          | some (v, r3) =>
            match skipWs r3 with
            | ',' :: r4 => parseMembers fuel r4 (insertKV acc k v)
            | '}' :: r4 => some (.jobj (insertKV acc k v), r4)
            | _ => none
        | _ => none
    | _ => none

def parseElements : Nat → List Char → List JVal → Option (JVal × List Char)
  | 0, _, _ => none
  | fuel + 1, cs, acc =>
    match parseValue fuel cs with
    | none => none
    | some (v, r) =>
      match skipWs r with
      | ',' :: r1 => parseElements fuel r1 (acc ++ [v])
      | ']' :: r1 => some (.jarr (acc ++ [v]), r1)
      | _ => none

end

end PyJson

/-- Model of Python `json.loads`: `some` on success, `none` when the
call raises `json.JSONDecodeError`. -/
def json_loads (s : String) : Option JVal :=
  match PyJson.parseValue (s.length + 2) s.toList with
  | some (v, rest) => if PyJson.skipWs rest = [] then some v else none
  | none => none

/-! ### Remaining Python string / value helpers -/

/-- Python substring containment `needle in hay`. -/
def strInAux (n : List Char) : List Char → Bool
  | [] => List.isPrefixOf n []
  | c :: rest => List.isPrefixOf n (c :: rest) || strInAux n rest

def strIn (needle hay : String) : Bool := strInAux needle.toList hay.toList

/-- Python `str.lower()` (ASCII range; the names compared in this
module are ASCII). -/
def pyLower (s : String) : String :=
  String.mk (s.toList.map (fun c =>
    if 'A' ≤ c ∧ c ≤ 'Z' then Char.ofNat (c.toNat + 32) else c))

/-- Python `str.strip()` with no argument (ASCII whitespace). -/
def pyStrip (s : String) : String :=
  String.mk
    (((s.toList.dropWhile Char.isWhitespace).reverse.dropWhile
        Char.isWhitespace).reverse)

/-- Python `str.split("\n")`, keeping empty fields. -/
def splitNlAux : List Char → List (List Char)
  | [] => [[]]
  | '\n' :: rest => [] :: splitNlAux rest
  | c :: rest =>
    match splitNlAux rest with
    | [] => [[c]]
    | l :: ls => (c :: l) :: ls

def pySplitNl (s : String) : List String := (splitNlAux s.toList).map String.mk

mutual

/-- Python `repr` of a parsed JSON value (used when such a value is
interpolated into an f-string inside a container). -/
def pyRepr : JVal → String
  | .jnull => "None"
  | .jbool b => if b then "True" else "False"
  | .jnum n => toString n
  | .jfloat raw => raw
  | .jstr s => "\x27" ++ s ++ "\x27"
  | .jarr xs => "[" ++ pyReprSep xs ++ "]"
  | .jobj fs => "\x7b" ++ pyReprFields fs ++ "\x7d"

def pyReprSep : List JVal → String
  | [] => ""
  | [x] => pyRepr x
  | x :: xs => pyRepr x ++ ", " ++ pyReprSep xs

def pyReprFields : List (String × JVal) → String
  | [] => ""
  | [(k, v)] => "\x27" ++ k ++ "\x27: " ++ pyRepr v
  | (k, v) :: xs => "\x27" ++ k ++ "\x27: " ++ pyRepr v ++ ", " ++ pyReprFields xs

end

/-- Python `str(v)` / f-string interpolation of a parsed JSON value. -/
def pyStr : JVal → String
  | .jstr s => s
  | v => pyRepr v

namespace JVal

/-- Python `key in v` for a string `key`: dict key membership, substring
test on strings, element equality on lists; `TypeError` otherwise. -/
def pyContains : JVal → String → Except PyErr Bool
  | .jobj fs, k => .ok (fs.any (fun p => p.1 = k))
  | .jstr s, k => .ok (strIn k s)
  | .jarr xs, k => .ok (xs.any (fun x => x.eqStr k))
  | _, _ => .error .typeError

/-- Python `v[key]` for a string `key`. -/
def pyIndexStr : JVal → String → Except PyErr JVal
  | .jobj fs, k =>
      match fs.find? (fun p => p.1 = k) with
      | some p => .ok p.2
      | none => .error .keyError
  | _, _ => .error .typeError

/-- Python `v[0]`. -/
def pyIndex0 : JVal → Except PyErr JVal
  | .jarr [] => .error .indexError
  | .jarr (x :: _) => .ok x
  | .jstr s =>
      match s.toList with
      | [] => .error .indexError
      | c :: _ => .ok (.jstr (String.singleton c))
  | _ => .error .typeError

/-- Python `a < b` on parsed JSON values; mixed `str`/`int` operands
raise `TypeError`.  (`jfloat` comparisons are not modelled; the claims
about counts restrict to integers.) -/
def pyLt : JVal → JVal → Except PyErr Bool
  | .jnum a, .jnum b => .ok (a < b)
  | .jnum a, .jbool b => .ok (a < if b then 1 else 0)
  | .jbool a, .jnum b => .ok ((if a then (1 : Int) else 0) < b)
  | .jbool a, .jbool b => .ok ((if a then (1 : Int) else 0) < if b then 1 else 0)
  | .jstr a, .jstr b => .ok (a < b)
  | _, _ => .error .typeError

end JVal

/-! ### Gateway responses, probe results and the ledger -/

/-- A `(stdout, stderr, return_code)` triple as returned by
`GPUValidator.run_command`. -/
structure Resp where
  stdout : String
  stderr : String
  rc : Int
  deriving Repr, DecidableEq

/-- One entry of `validation_results`: the `status` / `message` /
optional `details` dictionary every probe stores. -/
structure VRes where
  status : String
  message : String
  details : Option JVal
  deriving DecidableEq

/-- The `validation_results` dictionary: insertion-ordered mapping from
probe key to its result. -/
abbrev Ledger := List (String × VRes)

instance {ε α : Type} [DecidableEq ε] [DecidableEq α] : DecidableEq (Except ε α)
  | .ok a, .ok b =>
      if h : a = b then .isTrue (by rw [h])
      else .isFalse (by intro he; cases he; exact h rfl)
  | .ok _, .error _ => .isFalse (by intro h; cases h)
  | .error _, .ok _ => .isFalse (by intro h; cases h)
  | .error a, .error b =>
      if h : a = b then .isTrue (by rw [h])
      else .isFalse (by intro he; cases he; exact h rfl)

/-- Python dict assignment `validation_results[k] = v`: an existing key
keeps its position and gets the new value, a new key is appended. -/
def setEntry (st : Ledger) (k : String) (v : VRes) : Ledger :=
  if st.any (fun p => p.1 = k) then
    st.map (fun p => if p.1 = k then (k, v) else p)
  else st ++ [(k, v)]

def lookupEntry (st : Ledger) (k : String) : Option VRes :=
  match st.find? (fun p => p.1 = k) with
  | some p => some p.2
  | none => none

/-- What one probe invocation does: the single ledger write it performs
(none when an uncaught exception aborts it first) and its outcome —
`.ok` the returned boolean, `.error` the escaping Python exception. -/
structure POut where
  write : Option (String × VRes)
  ret : Except PyErr Bool
  deriving DecidableEq

/-- Run a probe outcome against a ledger, performing its write. -/
def applyP (o : POut) (st : Ledger) : Ledger × Except PyErr Bool :=
  (match o.write with
   | some (k, v) => setEntry st k v
   | none => st, o.ret)

/-- Package the `try:` body of a probe: a raised exception escapes with
no write, a normal path stores its result under `key`. -/
def runBody (key : String) (body : Except PyErr (VRes × Bool)) : POut :=
  match body with
  | .error e => ⟨none, .error e⟩
  | .ok (v, b) => ⟨some (key, v), .ok b⟩

/-! ### The probes of `GPUValidator` -/

/-- `GPUValidator.validate_oc_connection`. -/
def validate_oc_connection (r : Resp) : POut :=
  if r.rc ≠ 0 then
    ⟨some ("oc_connection",
      ⟨"failed",
       "Not connected to OpenShift cluster. Please run \x27oc login\x27 first.",
       some (.jstr r.stderr)⟩), .ok false⟩
  else
    ⟨some ("oc_connection",
      ⟨"passed", "Connected to OpenShift cluster as " ++ pyStrip r.stdout,
       none⟩), .ok true⟩

/-- The search loop of `validate_gpu_operator_installation`: the first
CSV item whose lowercased name contains `"gpu-operator"`, together with
that name. -/
def findGpuOperator : List JVal → Except PyErr (Option (String × JVal))
  | [] => .ok none
  | item :: rest => do
      let md ← item.pyGet "metadata" (.jobj [])
      let nm ← md.pyGet "name" (.jstr "")
      let nameS ← nm.asStr
      if strIn "gpu-operator" (pyLower nameS) then .ok (some (nameS, item))
      else findGpuOperator rest

/-- `GPUValidator.validate_gpu_operator_installation`. -/
def validate_gpu_operator_installation (ns : String) (r : Resp) : POut :=
  if r.rc ≠ 0 then
    ⟨some ("gpu_operator",
      ⟨"failed",
       "Failed to get ClusterServiceVersions from " ++ ns ++ " namespace",
       some (.jstr r.stderr)⟩), .ok false⟩
  else
    match json_loads r.stdout with
    | none =>
        ⟨some ("gpu_operator",
          ⟨"failed", "Failed to parse JSON output from OpenShift",
           some (.jstr r.stdout)⟩), .ok false⟩
    | some csv =>
        runBody "gpu_operator" (do
          let itemsJ ← csv.pyGet "items" (.jarr [])
          let items ← itemsJ.pyIter
          match ← findGpuOperator items with
          | some (name, item) => do
              let spec ← item.pyGet "spec" (.jobj [])
              let version ← spec.pyGet "version" (.jstr "unknown")
              .ok (⟨"passed", "GPU Operator installed, version: " ++ pyStr version,
                    some (.jobj [("name", .jstr name), ("version", version)])⟩,
                   true)
          | none =>
              .ok (⟨"failed", "GPU Operator not found in the specified namespace",
                    none⟩, false))

/-- The inner loop over `containerStatuses` shared by the pod probes:
the `"reason: message"` strings of non-ready containers. -/
def podReasons : List JVal → Except PyErr (List JVal)
  | [] => .ok []
  | container :: rest => do
      let ready ← container.pyGet "ready" (.jbool false)
      if ready.truthy then podReasons rest
      else do
        let st ← container.pyGet "state" (.jobj [])
        let waiting ← st.pyGet "waiting" (.jobj [])
        let reason ← waiting.pyGet "reason" (.jstr "Unknown")
        let msg ← waiting.pyGet "message" (.jstr "No details available")
        let rest' ← podReasons rest
        .ok (.jstr (pyStr reason ++ ": " ++ pyStr msg) :: rest')

/-- The loop of `validate_gpu_operator_pods`: the `problematic_pods`
entries, in pod order. -/
def collectProblematic : List JVal → Except PyErr (List JVal)
  | [] => .ok []
  | pod :: rest => do
      let md ← pod.pyGet "metadata" (.jobj [])
      let podName ← md.pyGet "name" (.jstr "unknown")
      let podStatus ← pod.pyGet "status" (.jobj [])
      let phase ← podStatus.pyGet "phase" (.jstr "Unknown")
      if phase.eqStr "Running" then collectProblematic rest
      else do
        let cs ← podStatus.pyGet "containerStatuses" (.jarr [])
        let csList ← cs.pyIter
        let reasons ← podReasons csList
        let rest' ← collectProblematic rest
        .ok (.jobj [("name", podName), ("phase", phase),
                    ("reasons", .jarr reasons)] :: rest')

/-- `GPUValidator.validate_gpu_operator_pods`. -/
def validate_gpu_operator_pods (ns : String) (r : Resp) : POut :=
  if r.rc ≠ 0 then
    ⟨some ("gpu_operator_pods",
      ⟨"failed", "Failed to get pods from " ++ ns ++ " namespace",
       some (.jstr r.stderr)⟩), .ok false⟩
  else
    match json_loads r.stdout with
    | none =>
        ⟨some ("gpu_operator_pods",
          ⟨"failed", "Failed to parse JSON output from OpenShift",
           some (.jstr r.stdout)⟩), .ok false⟩
    | some podData =>
        runBody "gpu_operator_pods" (do
          let podsJ ← podData.pyGet "items" (.jarr [])
          let pods ← podsJ.pyIter
          let problematic ← collectProblematic pods
          if problematic.isEmpty then
            .ok (⟨"passed", "All pods in " ++ ns ++ " namespace are running",
                  none⟩, true)
          else
            .ok (⟨"failed",
                  "Found " ++ toString problematic.length ++ " problematic pods",
                  some (.jarr problematic)⟩, false))

/-- The loop of `validate_node_gpu_status`: the `nodes_with_gpus`
entries and the `nodes_without_gpus` names, in node order. -/
def splitNodesByGpu : List JVal → Except PyErr (List JVal × List JVal)
  | [] => .ok ([], [])
  | node :: rest => do
      let md ← node.pyGet "metadata" (.jobj [])
      let nodeName ← md.pyGet "name" (.jstr "unknown")
      let st ← node.pyGet "status" (.jobj [])
      let capacity ← st.pyGet "capacity" (.jobj [])
      let cnt ← capacity.pyGet "nvidia.com/gpu" (.jstr "0")
      let isGpu ←
        if cnt.truthy then do
          let k ← cnt.pyInt
          pure (decide (0 < k))
        else pure false
      let (ws, wos) ← splitNodesByGpu rest
      if isGpu then
        .ok (.jobj [("name", nodeName), ("gpu_count", cnt)] :: ws, wos)
      else .ok (ws, nodeName :: wos)

/-- `GPUValidator.validate_node_gpu_status`. -/
def validate_node_gpu_status (r : Resp) : POut :=
  if r.rc ≠ 0 then
    ⟨some ("node_gpu_status",
      ⟨"failed", "Failed to get nodes information",
       some (.jstr r.stderr)⟩), .ok false⟩
  else
    match json_loads r.stdout with
    | none =>
        ⟨some ("node_gpu_status",
          ⟨"failed", "Failed to parse JSON output from OpenShift",
           some (.jstr r.stdout)⟩), .ok false⟩
    | some nodeData =>
        runBody "node_gpu_status" (do
          let nodesJ ← nodeData.pyGet "items" (.jarr [])
          let nodes ← nodesJ.pyIter
          let (ws, wos) ← splitNodesByGpu nodes
          if ws.isEmpty then
            .ok (⟨"failed", "No nodes with GPUs found in the cluster",
                  some (.jobj [("nodes_checked", .jnum nodes.length),
                               ("nodes_without_gpus", .jarr wos)])⟩, false)
          else
            .ok (⟨"passed", "Found " ++ toString ws.length ++ " nodes with GPUs",
                  some (.jobj [("nodes_with_gpus", .jarr ws),
                               ("nodes_without_gpus", .jarr wos)])⟩, true))

/-- The fixed label set of `validate_gpu_feature_discovery`. -/
def expected_labels : List String :=
  ["feature.node.kubernetes.io/pci-10de.present",
   "nvidia.com/gpu.present",
   "nvidia.com/gpu.count",
   "nvidia.com/gpu.product",
   "nvidia.com/gpu.memory"]

/-- The inner label loop: `(gpu_labels, missing_labels)` for one node. -/
def checkLabels (labels : JVal) :
    List String → Except PyErr (List (String × JVal) × List String)
  | [] => .ok ([], [])
  | l :: rest => do
      let present ← labels.pyContains l
      if present then do
        let v ← labels.pyIndexStr l
        let (gl, ml) ← checkLabels labels rest
        .ok ((l, v) :: gl, ml)
      else do
        let (gl, ml) ← checkLabels labels rest
        .ok (gl, l :: ml)

/-- The capacity lookup a feature-discovery node goes through:
`int(node["status"]["capacity"].get("nvidia.com/gpu", "0"))`. -/
def capOf (node : JVal) : Except PyErr Int := do
  let st ← node.pyGet "status" (.jobj [])
  let capacity ← st.pyGet "capacity" (.jobj [])
  let cnt ← capacity.pyGet "nvidia.com/gpu" (.jstr "0")
  cnt.pyInt

/-- The name and label lookups a feature-discovery node goes through
before its capacity is read, in source order. -/
def nodePrelude (node : JVal) : Except PyErr (JVal × JVal) := do
  let md ← node.pyGet "metadata" (.jobj [])
  let nodeName ← md.pyGet "name" (.jstr "unknown")
  let labels ← md.pyGet "labels" (.jobj [])
  .ok (nodeName, labels)

/-- The node loop of `validate_gpu_feature_discovery`: the
`nodes_with_gpu_labels` and `nodes_missing_labels` entries. -/
def collectLabelNodes : List JVal → Except PyErr (List JVal × List JVal)
  | [] => .ok ([], [])
  | node :: rest => do
      let (nodeName, labels) ← nodePrelude node
      let k ← capOf node
      if k = 0 then collectLabelNodes rest
      else do
        let (gl, ml) ← checkLabels labels expected_labels
        let (ws, ms) ← collectLabelNodes rest
        if ml.isEmpty then
          .ok (.jobj [("name", nodeName), ("gpu_labels", .jobj gl)] :: ws, ms)
        else
          .ok (ws, .jobj [("name", nodeName),
                          ("missing_labels", .jarr (ml.map .jstr)),
                          ("existing_gpu_labels", .jobj gl)] :: ms)

/-- `GPUValidator.validate_gpu_feature_discovery`. -/
def validate_gpu_feature_discovery (r : Resp) : POut :=
  if r.rc ≠ 0 then
    ⟨some ("gpu_feature_discovery",
      ⟨"failed", "Failed to get nodes information",
       some (.jstr r.stderr)⟩), .ok false⟩
  else
    match json_loads r.stdout with
    | none =>
        ⟨some ("gpu_feature_discovery",
          ⟨"failed", "Failed to parse JSON output from OpenShift",
           some (.jstr r.stdout)⟩), .ok false⟩
    | some nodeData =>
        runBody "gpu_feature_discovery" (do
          let nodesJ ← nodeData.pyGet "items" (.jarr [])
          let nodes ← nodesJ.pyIter
          let (ws, ms) ← collectLabelNodes nodes
          if ¬ms.isEmpty then
            .ok (⟨"failed",
                  "Found " ++ toString ms.length ++
                    " nodes with missing GPU feature labels",
                  some (.jobj [("nodes_with_complete_labels", .jarr ws),
                               ("nodes_with_missing_labels", .jarr ms)])⟩, false)
          else if ws.isEmpty then
            .ok (⟨"failed", "No nodes with GPU feature labels found", none⟩,
                 false)
          else
            .ok (⟨"passed",
                  "Found " ++ toString ws.length ++
                    " nodes with proper GPU feature labels",
                  some (.jobj [("nodes", .jarr ws)])⟩, true))

/-- The search loop of `validate_driver_daemonset`: the first daemon
set whose lowercased name contains `"nvidia-driver"`. -/
def findDriverDS : List JVal → Except PyErr (Option JVal)
  | [] => .ok none
  | ds :: rest => do
      let md ← ds.pyGet "metadata" (.jobj [])
      let nm ← md.pyGet "name" (.jstr "")
      let nameS ← nm.asStr
      if strIn "nvidia-driver" (pyLower nameS) then .ok (some ds)
      else findDriverDS rest

/-- The status counters of the driver daemon set, with the defaults the
source uses. -/
def dsCounts (ds : JVal) : Except PyErr (JVal × JVal × JVal) := do
  let st ← ds.pyGet "status" (.jobj [])
  let d ← st.pyGet "desiredNumberScheduled" (.jnum 0)
  let c ← st.pyGet "currentNumberScheduled" (.jnum 0)
  let rdy ← st.pyGet "numberReady" (.jnum 0)
  .ok (d, c, rdy)

/-- `GPUValidator.validate_driver_daemonset`. -/
def validate_driver_daemonset (ns : String) (r : Resp) : POut :=
  if r.rc ≠ 0 then
    ⟨some ("driver_daemonset",
      ⟨"failed", "Failed to get daemonsets from " ++ ns ++ " namespace",
       some (.jstr r.stderr)⟩), .ok false⟩
  else
    match json_loads r.stdout with
    | none =>
        ⟨some ("driver_daemonset",
          ⟨"failed", "Failed to parse JSON output from OpenShift",
           some (.jstr r.stdout)⟩), .ok false⟩
    | some dsData =>
        runBody "driver_daemonset" (do
          let itemsJ ← dsData.pyGet "items" (.jarr [])
          let daemonsets ← itemsJ.pyIter
          match ← findDriverDS daemonsets with
          | none =>
              .ok (⟨"failed", "NVIDIA driver daemonset not found", none⟩, false)
          | some ds => do
              let (d, c, rdy) ← dsCounts ds
              if d.eqInt 0 then
                .ok (⟨"failed",
                      "NVIDIA driver daemonset exists but is not scheduled on any nodes",
                      none⟩, false)
              else do
                let md ← ds.pyGet "metadata" (.jobj [])
                let dsName ← md.pyGet "name" (.jstr "")
                let notReady ← rdy.pyLt d
                if notReady then
                  .ok (⟨"failed",
                        "NVIDIA driver daemonset not fully ready: " ++
                          pyStr rdy ++ "/" ++ pyStr d ++ " ready",
                        some (.jobj [("name", dsName), ("desired", d),
                                     ("current", c), ("ready", rdy)])⟩, false)
                else
                  .ok (⟨"passed",
                        "NVIDIA driver daemonset is running properly: " ++
                          pyStr rdy ++ "/" ++ pyStr d ++ " ready",
                        some (.jobj [("name", dsName), ("desired", d),
                                     ("current", c), ("ready", rdy)])⟩, true))

/-- The error strings `validate_gpu_workload` looks for in the logs. -/
def gpu_errors : List String :=
  ["CUDA_ERROR_NOT_INITIALIZED",
   "CUDA_ERROR_NO_DEVICE",
   "Failed to initialize NVML",
   "no CUDA-capable device is detected",
   "NVIDIA-SMI has failed"]

/-- `GPUValidator.validate_gpu_workload`.  `rPod` is the response of the
`oc get pod` query and `rLogs` of the `oc logs` query. -/
def validate_gpu_workload (ns podName : String) (rPod rLogs : Resp) : POut :=
  if rPod.rc ≠ 0 then
    ⟨some ("gpu_workload",
      ⟨"failed",
       "Failed to get pod " ++ podName ++ " in namespace " ++ ns,
       some (.jstr rPod.stderr)⟩), .ok false⟩
  else
    match json_loads rPod.stdout with
    | none =>
        ⟨some ("gpu_workload",
          ⟨"failed", "Failed to parse JSON output from OpenShift",
           some (.jstr rPod.stdout)⟩), .ok false⟩
    | some podData =>
        runBody "gpu_workload" (do
          let st0 ← podData.pyGet "status" (.jobj [])
          let phase ← st0.pyGet "phase" (.jstr "Unknown")
          if ¬phase.eqStr "Running" then do
            let st1 ← podData.pyGet "status" (.jobj [])
            let cs ← st1.pyGet "containerStatuses" (.jarr [])
            let csList ← cs.pyIter
            let reasons ← podReasons csList
            .ok (⟨"failed",
                  "GPU workload pod " ++ podName ++ " is not running (status: " ++
                    pyStr phase ++ ")",
                  some (.jobj [("reasons", .jarr reasons)])⟩, false)
          else do
            let spec ← podData.pyGet "spec" (.jobj [])
            let containers ← spec.pyGet "containers" (.jarr [.jobj []])
            let first ← containers.pyIndex0
            let resources ← first.pyGet "resources" (.jobj [])
            let limits ← resources.pyGet "limits" (.jobj [])
            let requests ← resources.pyGet "requests" (.jobj [])
            let gpuLimit ← limits.pyGet "nvidia.com/gpu" (.jstr "0")
            let gpuRequest ← requests.pyGet "nvidia.com/gpu" (.jstr "0")
            if gpuLimit.eqStr "0" ∧ gpuRequest.eqStr "0" then
              .ok (⟨"failed",
                    "Pod " ++ podName ++ " is not requesting any GPUs",
                    none⟩, false)
            else if rLogs.rc ≠ 0 then
              .ok (⟨"warning",
                    "Pod " ++ podName ++ " is running but could not retrieve logs",
                    some (.jobj [("gpu_limit", gpuLimit),
                                 ("gpu_request", gpuRequest),
                                 ("log_error", .jstr rLogs.stderr)])⟩, true)
            else
              let found := gpu_errors.filter (fun e => strIn e rLogs.stdout)
              if ¬found.isEmpty then
                .ok (⟨"failed",
                      "Pod " ++ podName ++ " has GPU-related errors in logs",
                      some (.jobj [("errors", .jarr (found.map .jstr))])⟩, false)
              else
                .ok (⟨"passed",
                      "GPU workload pod " ++ podName ++ " is running correctly",
                      some (.jobj [("gpu_limit", gpuLimit),
                                   ("gpu_request", gpuRequest)])⟩, true))

/-! ### The ephemeral workload manager: `validate_nvidia_smi_on_node`

The method issues a create call, polls the pod phase up to 30 times
with a one-second sleep, runs `nvidia-smi` via `oc exec`, deletes the
pod, and grades the exec output.  We record the gateway calls it makes
as an event trace so that the teardown and polling-budget claims can
be stated. -/

/-- One gateway interaction of `validate_nvidia_smi_on_node`. -/
inductive SmiEvent where
  | create
  | poll (i : Nat)
  | sleep (secs : Nat)
  | exec
  | delete
  deriving Repr, DecidableEq

/-- The gateway responses such a run can consume: the create call, the
`i`-th phase query, the exec call and the delete call. -/
structure SmiGateway where
  createResp : Resp
  pollResp : Nat → Resp
  execResp : Resp
  deleteResp : Resp

/-- Result of one run: its event trace, its single ledger write (absent
when an exception escapes first) and its outcome. -/
structure SmiOut where
  events : List SmiEvent
  write : Option (String × VRes)
  ret : Except PyErr Bool

/-- The phase extraction of one polling attempt:
`json.loads(stdout)` (unguarded in the source) followed by
`pod_data.get("status", {}).get("phase", "Unknown")`. -/
def pollPhase (stdout : String) : Except PyErr JVal :=
  match json_loads stdout with
  | none => .error .jsonDecodeError
  | some podData => do
      let st ← podData.pyGet "status" (.jobj [])
      st.pyGet "phase" (.jstr "Unknown")

/-- The `for _ in range(30)` polling loop, with `fuel` attempts left and
`i` the index of the next attempt.  Returns the poll/sleep events and
either normal loop exit (`.ok`, by `break` or exhaustion) or an escaped
exception. -/
def pollLoop (g : SmiGateway) : Nat → Nat → List SmiEvent × Except PyErr Unit
  | 0, _ => ([], .ok ())
  | fuel + 1, i =>
    let r := g.pollResp i
    if r.rc = 0 then
      match pollPhase r.stdout with
      | .error e => ([.poll i], .error e)
      | .ok phase =>
          if phase.eqStr "Running" then ([.poll i], .ok ())
          else
            let (evs, res) := pollLoop g fuel (i + 1)
            (.poll i :: .sleep 1 :: evs, res)
    else
      let (evs, res) := pollLoop g fuel (i + 1)
      (.poll i :: .sleep 1 :: evs, res)

/-- Model of `re.search(r"Driver Version: (\d+\.\d+\.\d+)", s)`:
after the literal, three nonempty digit runs separated by dots (the
digit runs being maximal makes backtracking unnecessary for this
pattern, since a digit can never stand where a dot is required). -/
def matchVersionAfter (cs : List Char) : Option (List Char) :=
  match cs.span Char.isDigit with
  | ([], _) => none
  | (d1, r1) =>
    match r1 with
    | '.' :: r2 =>
      match r2.span Char.isDigit with
      | ([], _) => none
      | (d2, r3) =>
        match r3 with
        | '.' :: r4 =>
          match r4.span Char.isDigit with
          | ([], _) => none
          | (d3, _) => some (d1 ++ '.' :: d2 ++ '.' :: d3)
        | _ => none
    | _ => none

/-- Leftmost match: try the literal at every position, left to right. -/
def searchDriverVersionAux : List Char → Option String
  | [] => none
  | c :: rest =>
    if List.isPrefixOf "Driver Version: ".toList (c :: rest) then
      match matchVersionAfter ((c :: rest).drop 16) with
      | some v => some (String.mk v)
      | none => searchDriverVersionAux rest
    else searchDriverVersionAux rest

def searchDriverVersion (s : String) : Option String :=
  searchDriverVersionAux s.toList

/-- The `gpu_info` lines: every line of the stripped output containing
`"|"`, `"%"` and `"MiB"`, itself stripped. -/
def gpuInfoLines (stdout : String) : List JVal :=
  ((pySplitNl (pyStrip stdout)).filter
      (fun l => strIn "|" l && strIn "%" l && strIn "MiB" l)).map
    (fun l => .jstr (pyStrip l))

/-- `GPUValidator.validate_nvidia_smi_on_node`. -/
def validate_nvidia_smi_on_node (g : SmiGateway) (nodeName : String) : SmiOut :=
  let key := "nvidia_smi_" ++ nodeName
  let c := g.createResp
  if c.rc ≠ 0 then
    { events := [.create],
      write := some (key,
        ⟨"failed", "Failed to create debug pod on node " ++ nodeName,
         some (.jstr c.stderr)⟩),
      ret := .ok false }
  else
    let (pevs, pres) := pollLoop g 30 0
    match pres with
    | .error e => { events := .create :: pevs, write := none, ret := .error e }
    | .ok _ =>
      let ex := g.execResp
      let evs := .create :: pevs ++ [.exec, .delete]
      if ex.rc ≠ 0 then
        { events := evs,
          write := some (key,
            ⟨"failed", "nvidia-smi failed on node " ++ nodeName,
             some (.jstr ex.stderr)⟩),
          ret := .ok false }
      else if strIn "NVIDIA-SMI" ex.stdout && strIn "Driver Version" ex.stdout then
        let driverVersion := (searchDriverVersion ex.stdout).getD "Unknown"
        { events := evs,
          write := some (key,
            ⟨"passed", "nvidia-smi is working on node " ++ nodeName,
             some (.jobj [("driver_version", .jstr driverVersion),
                          ("gpu_info", .jarr (gpuInfoLines ex.stdout))])⟩),
          ret := .ok true }
      else
        { events := evs,
          write := some (key,
            ⟨"failed", "nvidia-smi output is not as expected on node " ++ nodeName,
             some (.jstr ex.stdout)⟩),
          ret := .ok false }

/-! ### The orchestrator: `run_all_validations` -/

/-- All gateway responses one `run_all_validations` call can consume.
The three `oc get nodes` queries (node status probe, feature-discovery
probe, and the orchestrator's own inventory query) are independent
calls and get independent responses. -/
structure Gateway where
  whoami : Resp
  csv : Resp
  pods : Resp
  nodesStatus : Resp
  nodesLabels : Resp
  ds : Resp
  nodesSmi : Resp
  smi : String → SmiGateway

/-- Run one probe outcome, then continue with `k`; an escaped exception
aborts the sequence but keeps the writes made so far. -/
def stepP (o : POut) (led : Ledger) (k : Ledger → Ledger × Option PyErr) :
    Ledger × Option PyErr :=
  let led1 := (applyP o led).1
  match o.ret with
  | .error e => (led1, some e)
  | .ok _ => k led1

/-- The per-node fan-out at the end of `run_all_validations`. -/
def smiNodesLoop (g : Gateway) : List JVal → Ledger → Ledger × Option PyErr
  | [], led => (led, none)
  | node :: rest, led =>
    match node.pyGet "metadata" (.jobj []) with
    | .error e => (led, some e)
    | .ok md =>
      match md.pyGet "name" (.jstr "unknown") with
      | .error e => (led, some e)
      | .ok nodeName =>
        match (do
            let st ← node.pyGet "status" (.jobj [])
            let capacity ← st.pyGet "capacity" (.jobj [])
            capacity.pyGet "nvidia.com/gpu" (.jstr "0") :
              Except PyErr JVal) with
        | .error e => (led, some e)
        | .ok cnt =>
          match (if cnt.truthy then cnt.pyInt.map (fun k => decide (0 < k))
                 else .ok false : Except PyErr Bool) with
          | .error e => (led, some e)
          | .ok isGpu =>
            if isGpu then
              match nodeName.asStr with
              | .error e => (led, some e)
              | .ok nameS =>
                let out := validate_nvidia_smi_on_node (g.smi nameS) nameS
                let led1 := (applyP ⟨out.write, out.ret⟩ led).1
                match out.ret with
                | .error e => (led1, some e)
                | .ok _ => smiNodesLoop g rest led1
            else smiNodesLoop g rest led

/-- `GPUValidator.run_all_validations` on a fresh validator: the final
`validation_results` ledger, together with the exception escaping the
call if one does (`none` on normal return).  The `except
json.JSONDecodeError` at the end of the method catches exactly that
error from its `try` block — including from inside the per-node
`validate_nvidia_smi_on_node` calls. -/
def run_all_validations (ns : String) (g : Gateway) : Ledger × Option PyErr :=
  let conn := validate_oc_connection g.whoami
  let led0 := (applyP conn []).1
  if conn.ret = .ok false then (led0, none)
  else
    stepP (validate_gpu_operator_installation ns g.csv) led0 (fun led1 =>
    stepP (validate_gpu_operator_pods ns g.pods) led1 (fun led2 =>
    stepP (validate_node_gpu_status g.nodesStatus) led2 (fun led3 =>
    stepP (validate_gpu_feature_discovery g.nodesLabels) led3 (fun led4 =>
    stepP (validate_driver_daemonset ns g.ds) led4 (fun led5 =>
      if g.nodesSmi.rc = 0 then
        match json_loads g.nodesSmi.stdout with
        | none => (led5, none)
        | some nodeData =>
          match nodeData.pyGet "items" (.jarr []) with
          | .error e => (led5, some e)
          | .ok itemsJ =>
            match itemsJ.pyIter with
            | .error e => (led5, some e)
            | .ok nodes =>
              match smiNodesLoop g nodes led5 with
              | (led6, some .jsonDecodeError) => (led6, none)
              | (led6, e) => (led6, e)
      else (led5, none))))))

/-! ### The gateway wrapper: `run_command` -/

/-- What the `subprocess` interaction inside `run_command` can do:
either the child completes and yields `(stdout, stderr, returncode)`,
or launching/communicating raises an exception whose `str(e)` is
`msg`.  The `except Exception` clause is a catch-all, so `raised`
covers every exception type. -/
inductive SubprocOutcome where
  | completed (stdout stderr : String) (returncode : Int)
  | raised (msg : String)

/-- `GPUValidator.run_command`: the returned `(stdout, stderr,
return_code)` triple as a function of the subprocess outcome. -/
def run_command : SubprocOutcome → String × String × Int
  | .completed o e c => (o, e, c)
  | .raised m => ("", m, 1)

/-! ### Helpers for stating the polling-budget claims -/

def isPoll : SmiEvent → Bool
  | .poll _ => true
  | _ => false

/-- A loop trace in which every phase query except a final one is
followed immediately by the one-second sleep. -/
def wellSpaced : List SmiEvent → Bool
  | [] => true
  | [SmiEvent.poll _] => true
  | .poll _ :: .sleep 1 :: rest => wellSpaced rest
  | _ => false

/-- The phase lookup of one pod, as the pod probes perform it. -/
def podPhase (pod : JVal) : Except PyErr JVal := do
  let st ← pod.pyGet "status" (.jobj [])
  st.pyGet "phase" (.jstr "Unknown")

/-! ### Concrete gateway inputs used by the witnesses and
counterexamples below -/

def respUnused : Resp := ⟨"", "", 1⟩

def smiUnused : SmiGateway :=
  ⟨respUnused, fun _ => respUnused, respUnused, respUnused⟩

/-- A gateway whose `oc whoami` fails; all other responses are inert. -/
def gConnFail : Gateway :=
  ⟨⟨"", "error: you must be logged in to the server", 1⟩,
   respUnused, respUnused, respUnused, respUnused, respUnused, respUnused,
   fun _ => smiUnused⟩

/-- A phase query answering `{"status": {"phase": "Running"}}`. -/
def runningPollResp : Resp :=
  ⟨"\x7b\"status\": \x7b\"phase\": \"Running\"\x7d\x7d", "", 0⟩

/-- Create succeeds, the first phase query returns exit 0 with
unparseable stdout. -/
def gBadPoll : SmiGateway :=
  ⟨⟨"pod/nvidia-smi-debug-node1 created", "", 0⟩,
   fun _ => ⟨"not json", "", 0⟩, ⟨"", "", 0⟩, ⟨"", "", 0⟩⟩

/-- Create succeeds, the first phase query returns exit 0 with the
unparseable stdout `"{"`. -/
def gBracePoll : SmiGateway :=
  ⟨⟨"pod created", "", 0⟩, fun _ => ⟨"\x7b", "", 0⟩, ⟨"", "", 0⟩,
   ⟨"", "", 0⟩⟩

/-- A healthy run whose exec output carries banner and version
`535.104.05`. -/
def smi535Stdout : String :=
  "| NVIDIA-SMI 535.104.05    Driver Version: 535.104.05    CUDA Version: 12.2 |\n| 30%   45C    P8    25W / 250W |   1000MiB / 11264MiB |"

def g535 : SmiGateway :=
  ⟨⟨"pod/nvidia-smi-debug-node1 created", "", 0⟩, fun _ => runningPollResp,
   ⟨smi535Stdout, "", 0⟩, ⟨"pod deleted", "", 0⟩⟩

/-- Exec succeeds and its output contains the banner and the literal
`Driver Version`, but no version matching the extraction pattern. -/
def gNoVersion : SmiGateway :=
  ⟨⟨"pod created", "", 0⟩, fun _ => runningPollResp,
   ⟨"NVIDIA-SMI Driver Version: N/A", "", 0⟩, ⟨"", "", 0⟩⟩

/-- A successful poll followed by a failing exec. -/
def gPollEarly : SmiGateway :=
  ⟨⟨"pod created", "", 0⟩, fun _ => runningPollResp, ⟨"", "no gpu", 1⟩,
   ⟨"", "", 0⟩⟩

/-- Node inventory whose single node has accelerator capacity `"x"`. -/
def respBadCapacity : Resp :=
  ⟨"\x7b\"items\": [\x7b\"status\": \x7b\"capacity\": \x7b\"nvidia.com/gpu\": \"x\"\x7d\x7d\x7d]\x7d",
   "", 0⟩

/-- Node inventory whose single node has accelerator capacity `"-1"`
and no labels. -/
def respNegCapacity : Resp :=
  ⟨"\x7b\"items\": [\x7b\"metadata\": \x7b\"name\": \"n1\", \"labels\": \x7b\x7d\x7d, \"status\": \x7b\"capacity\": \x7b\"nvidia.com/gpu\": \"-1\"\x7d\x7d\x7d]\x7d",
   "", 0⟩

/-- The `-1`-capacity node of `respNegCapacity`, as a parsed value. -/
def negCapacityNode : JVal :=
  .jobj [("metadata", .jobj [("name", .jstr "n1"), ("labels", .jobj [])]),
         ("status", .jobj [("capacity", .jobj [("nvidia.com/gpu", .jstr "-1")])])]

/-- Daemon-set query: driver daemon set desired 2, current 2, ready 1. -/
def respDs21 : Resp :=
  ⟨"\x7b\"items\": [\x7b\"metadata\": \x7b\"name\": \"nvidia-driver-daemonset\"\x7d, \"status\": \x7b\"desiredNumberScheduled\": 2, \"currentNumberScheduled\": 2, \"numberReady\": 1\x7d\x7d]\x7d",
   "", 0⟩

/-- Pod query with an empty pod collection. -/
def respNoPods : Resp := ⟨"\x7b\"items\": []\x7d", "", 0⟩

/-- Pod query with a single pod in phase `Pending`. -/
def respOnePendingPod : Resp :=
  ⟨"\x7b\"items\": [\x7b\"metadata\": \x7b\"name\": \"p1\"\x7d, \"status\": \x7b\"phase\": \"Pending\"\x7d\x7d]\x7d",
   "", 0⟩

/-- The parsed driver daemon set of `respDs21`. -/
def ds21Node : JVal :=
  .jobj [("metadata", .jobj [("name", .jstr "nvidia-driver-daemonset")]),
         ("status", .jobj [("desiredNumberScheduled", .jnum 2),
                           ("currentNumberScheduled", .jnum 2),
                           ("numberReady", .jnum 1)])]

/-- The parsed pending pod of `respOnePendingPod`. -/
def pendingPodVal : JVal :=
  .jobj [("metadata", .jobj [("name", .jstr "p1")]),
         ("status", .jobj [("phase", .jstr "Pending")])]

/-! ## Theorems

First some shared lemmas about the ledger and the loops, then one
theorem (plus witness or counterexample) per claim. -/

theorem setEntry_map_self (k : String) (v : VRes) :
    ∀ st : Ledger,
      (st.map (fun p => if p.1 = k then (k, v) else p)).map
          (fun p => if p.1 = k then (k, v) else p) =
        st.map (fun p => if p.1 = k then (k, v) else p)
  | [] => rfl
  | p :: st => by
      by_cases hk : p.1 = k
      · simp [hk, setEntry_map_self k v st]
      · simp [hk, setEntry_map_self k v st]

theorem setEntry_any_map (k : String) (v : VRes) :
    ∀ st : Ledger,
      (st.map (fun p => if p.1 = k then (k, v) else p)).any (fun p => p.1 = k) =
        st.any (fun p => p.1 = k)
  | [] => rfl
  | p :: st => by
      by_cases hk : p.1 = k
      · simp [hk, setEntry_any_map k v st]
      · simp [hk, setEntry_any_map k v st]

theorem setEntry_map_absent (k : String) (v : VRes) :
    ∀ st : Ledger, st.any (fun p => p.1 = k) = false →
      st.map (fun p => if p.1 = k then (k, v) else p) = st
  | [], _ => rfl
  | p :: st, h => by
      simp only [List.any_cons, Bool.or_eq_false_iff, decide_eq_false_iff_not] at h
      simp [h.1, setEntry_map_absent k v st (by simpa using h.2)]

theorem setEntry_set_idem (st : Ledger) (k : String) (v : VRes) :
    setEntry (setEntry st k v) k v = setEntry st k v := by
  unfold setEntry
  by_cases h : st.any (fun p => p.1 = k) = true
  · simp only [h, if_true, setEntry_any_map, setEntry_map_self]
  · have h' : st.any (fun p => p.1 = k) = false := by
      cases hb : st.any (fun p => p.1 = k) with
      | true => exact absurd hb h
      | false => rfl
    have hany : (st ++ [(k, v)]).any (fun p => p.1 = k) = true := by
      simp [List.any_append]
    simp only [h', Bool.false_eq_true, if_false, hany, if_true, List.map_append]
    rw [setEntry_map_absent k v st h']
    simp

theorem applyP_idem (o : POut) (st : Ledger) :
    applyP o (applyP o st).1 = applyP o st := by
  rcases o with ⟨w, ret⟩
  rcases w with _ | ⟨k, v⟩
  · rfl
  · simp [applyP, setEntry_set_idem]

theorem pollLoop_poll_count (g : SmiGateway) :
    ∀ fuel i, ((pollLoop g fuel i).1.countP isPoll) ≤ fuel
  | 0, _ => by simp [pollLoop]
  | fuel + 1, i => by
      unfold pollLoop
      by_cases hrc : (g.pollResp i).rc = 0
      · simp only [hrc, if_true]
        cases hph : pollPhase (g.pollResp i).stdout with
        | error e => simp [List.countP, List.countP.go, isPoll]
        | ok phase =>
          by_cases hr : phase.eqStr "Running" = true
          · simp [hr, List.countP, List.countP.go, isPoll]
          · have ih := pollLoop_poll_count g fuel (i + 1)
            rcases hpl : pollLoop g fuel (i + 1) with ⟨evs, res⟩
            rw [hpl] at ih
            simp only [hr, Bool.false_eq_true, if_false, hpl,
              List.countP_cons, isPoll]
            simpa using ih
      · have ih := pollLoop_poll_count g fuel (i + 1)
        rcases hpl : pollLoop g fuel (i + 1) with ⟨evs, res⟩
        rw [hpl] at ih
        simp only [hrc, if_false, hpl, List.countP_cons, isPoll]
        simpa using ih

theorem pollLoop_breaks_on_running (g : SmiGateway) (fuel i : Nat)
    (h0 : (g.pollResp i).rc = 0)
    (hph : pollPhase (g.pollResp i).stdout = .ok (.jstr "Running")) :
    pollLoop g (fuel + 1) i = ([.poll i], .ok ()) := by
  unfold pollLoop
  simp [h0, hph, JVal.eqStr]

theorem pollLoop_wellSpaced (g : SmiGateway) :
    ∀ fuel i, wellSpaced (pollLoop g fuel i).1 = true
  | 0, _ => by simp [pollLoop, wellSpaced]
  | fuel + 1, i => by
      unfold pollLoop
      by_cases hrc : (g.pollResp i).rc = 0
      · simp only [hrc, if_true]
        cases hph : pollPhase (g.pollResp i).stdout with
        | error e => simp [wellSpaced]
        | ok phase =>
          by_cases hr : phase.eqStr "Running" = true
          · simp [hr, wellSpaced]
          · have ih := pollLoop_wellSpaced g fuel (i + 1)
            rcases hpl : pollLoop g fuel (i + 1) with ⟨evs, res⟩
            rw [hpl] at ih
            simp only [hr, Bool.false_eq_true, if_false, hpl]
            simpa [wellSpaced] using ih
      · have ih := pollLoop_wellSpaced g fuel (i + 1)
        rcases hpl : pollLoop g fuel (i + 1) with ⟨evs, res⟩
        rw [hpl] at ih
        simp only [hrc, if_false, hpl]
        simpa [wellSpaced] using ih

/-- C9: `run_command` is total over subprocess outcomes: a completed
child yields its `(stdout, stderr, returncode)` triple unchanged, and
any exception raised while launching or communicating is caught and
turned into `("", str(e), 1)` — nothing propagates to the caller. -/
theorem c9_run_command_total :
    (∀ o e c, run_command (.completed o e c) = (o, e, c)) ∧
    (∀ m, run_command (.raised m) = ("", m, 1)) :=
  ⟨fun _ _ _ => rfl, fun _ => rfl⟩

/-- C8: every probe is deterministic in the gateway output.  Each
embedded probe is a pure function of the responses alone — it never
reads the ledger — so running a probe a second time with the identical
responses performs the identical write and returns the identical
outcome: applying it twice equals applying it once, for every prior
ledger state. -/
theorem c8_probe_determinism :
    (∀ r st, applyP (validate_oc_connection r)
        (applyP (validate_oc_connection r) st).1 =
      applyP (validate_oc_connection r) st) ∧
    (∀ ns r st, applyP (validate_gpu_operator_installation ns r)
        (applyP (validate_gpu_operator_installation ns r) st).1 =
      applyP (validate_gpu_operator_installation ns r) st) ∧
    (∀ ns r st, applyP (validate_gpu_operator_pods ns r)
        (applyP (validate_gpu_operator_pods ns r) st).1 =
      applyP (validate_gpu_operator_pods ns r) st) ∧
    (∀ r st, applyP (validate_node_gpu_status r)
        (applyP (validate_node_gpu_status r) st).1 =
      applyP (validate_node_gpu_status r) st) ∧
    (∀ r st, applyP (validate_gpu_feature_discovery r)
        (applyP (validate_gpu_feature_discovery r) st).1 =
      applyP (validate_gpu_feature_discovery r) st) ∧
    (∀ ns r st, applyP (validate_driver_daemonset ns r)
        (applyP (validate_driver_daemonset ns r) st).1 =
      applyP (validate_driver_daemonset ns r) st) ∧
    (∀ ns pn rPod rLogs st, applyP (validate_gpu_workload ns pn rPod rLogs)
        (applyP (validate_gpu_workload ns pn rPod rLogs) st).1 =
      applyP (validate_gpu_workload ns pn rPod rLogs) st) ∧
    (∀ g n st,
      applyP ⟨(validate_nvidia_smi_on_node g n).write,
              (validate_nvidia_smi_on_node g n).ret⟩
        (applyP ⟨(validate_nvidia_smi_on_node g n).write,
                 (validate_nvidia_smi_on_node g n).ret⟩ st).1 =
      applyP ⟨(validate_nvidia_smi_on_node g n).write,
              (validate_nvidia_smi_on_node g n).ret⟩ st) :=
  ⟨fun _ st => applyP_idem _ st,
   fun _ _ st => applyP_idem _ st,
   fun _ _ st => applyP_idem _ st,
   fun _ st => applyP_idem _ st,
   fun _ st => applyP_idem _ st,
   fun _ _ st => applyP_idem _ st,
   fun _ _ _ _ st => applyP_idem _ st,
   fun _ _ st => applyP_idem _ st⟩

/-- C3: if `oc whoami` returns a non-zero exit status, the whole run
returns normally with a ledger holding exactly the one failed
connectivity entry; no other probe executes. -/
theorem c3_connectivity_short_circuit (ns : String) (g : Gateway)
    (h : g.whoami.rc ≠ 0) :
    run_all_validations ns g =
      ([("oc_connection",
         ⟨"failed",
          "Not connected to OpenShift cluster. Please run \x27oc login\x27 first.",
          some (.jstr g.whoami.stderr)⟩)], none) ∧
    (run_all_validations ns g).1.length = 1 := by
  have h1 : run_all_validations ns g =
      ([("oc_connection",
         ⟨"failed",
          "Not connected to OpenShift cluster. Please run \x27oc login\x27 first.",
          some (.jstr g.whoami.stderr)⟩)], none) := by
    unfold run_all_validations validate_oc_connection
    simp [h, applyP, setEntry]
  exact ⟨h1, by rw [h1]; rfl⟩

/-- Witness for C3 at a concrete gateway whose `oc whoami` fails. -/
theorem c3_connectivity_short_circuit_witness :
    gConnFail.whoami.rc ≠ 0 ∧
    run_all_validations "nvidia-gpu-operator" gConnFail =
      ([("oc_connection",
         ⟨"failed",
          "Not connected to OpenShift cluster. Please run \x27oc login\x27 first.",
          some (.jstr "error: you must be logged in to the server")⟩)], none) :=
  ⟨by decide,
   (c3_connectivity_short_circuit "nvidia-gpu-operator" gConnFail (by decide)).1⟩

/-- C1: claimed teardown guarantee, evaluated at the input that breaks
it.  With a successful create call and a phase query that returns exit
status 0 with unparseable stdout, the unguarded `json.loads` inside the
polling loop raises `JSONDecodeError`; the method neither issues the
delete call nor returns, so the submitted workload is leaked. -/
theorem c1_teardown_skipped_on_unparseable_poll :
    gBadPoll.createResp.rc = 0 ∧
    (validate_nvidia_smi_on_node gBadPoll "node1").events =
      [.create, .poll 0] ∧
    SmiEvent.delete ∉ (validate_nvidia_smi_on_node gBadPoll "node1").events ∧
    (validate_nvidia_smi_on_node gBadPoll "node1").write = none ∧
    (validate_nvidia_smi_on_node gBadPoll "node1").ret =
      .error .jsonDecodeError := by decide

/-- C2 counterexample: a probe CAN raise on gateway output.  With exit
status 0 and well-formed JSON whose accelerator capacity is the
non-numeric string `"x"`, `validate_node_gpu_status` raises
`ValueError` from `int(...)` instead of recording a Failed result. -/
theorem c2_probe_raises_on_gateway_output :
    respBadCapacity.rc = 0 ∧
    (validate_node_gpu_status respBadCapacity).ret = .error .valueError ∧
    (validate_node_gpu_status respBadCapacity).write = none := by decide

/-- C2 amended: what the probes do guarantee.  Every probe converts a
non-zero exit status into a recorded Failed result carrying the stderr
text, and every probe that guards its parse converts a JSON decode
failure on a zero exit status into a recorded Failed result carrying
the raw stdout; `validate_oc_connection` is total outright, and a
failing create call in `validate_nvidia_smi_on_node` is likewise
converted.  (Totality does not extend to arbitrary well-formed JSON,
and the phase-polling parse of `validate_nvidia_smi_on_node` is
unguarded — see the counterexample.) -/
theorem c2_amended_gateway_error_conversion :
    (∀ r, (validate_oc_connection r).ret = .ok (decide (r.rc = 0)) ∧
          (validate_oc_connection r).write.isSome = true) ∧
    (∀ ns r, r.rc ≠ 0 →
      validate_gpu_operator_installation ns r =
        ⟨some ("gpu_operator",
          ⟨"failed",
           "Failed to get ClusterServiceVersions from " ++ ns ++ " namespace",
           some (.jstr r.stderr)⟩), .ok false⟩) ∧
    (∀ ns r, r.rc = 0 → json_loads r.stdout = none →
      validate_gpu_operator_installation ns r =
        ⟨some ("gpu_operator",
          ⟨"failed", "Failed to parse JSON output from OpenShift",
           some (.jstr r.stdout)⟩), .ok false⟩) ∧
    (∀ ns r, r.rc ≠ 0 →
      validate_gpu_operator_pods ns r =
        ⟨some ("gpu_operator_pods",
          ⟨"failed", "Failed to get pods from " ++ ns ++ " namespace",
           some (.jstr r.stderr)⟩), .ok false⟩) ∧
    (∀ ns r, r.rc = 0 → json_loads r.stdout = none →
      validate_gpu_operator_pods ns r =
        ⟨some ("gpu_operator_pods",
          ⟨"failed", "Failed to parse JSON output from OpenShift",
           some (.jstr r.stdout)⟩), .ok false⟩) ∧
    (∀ r, r.rc ≠ 0 →
      validate_node_gpu_status r =
        ⟨some ("node_gpu_status",
          ⟨"failed", "Failed to get nodes information",
           some (.jstr r.stderr)⟩), .ok false⟩) ∧
    (∀ r, r.rc = 0 → json_loads r.stdout = none →
      validate_node_gpu_status r =
        ⟨some ("node_gpu_status",
          ⟨"failed", "Failed to parse JSON output from OpenShift",
           some (.jstr r.stdout)⟩), .ok false⟩) ∧
    (∀ r, r.rc ≠ 0 →
      validate_gpu_feature_discovery r =
        ⟨some ("gpu_feature_discovery",
          ⟨"failed", "Failed to get nodes information",
           some (.jstr r.stderr)⟩), .ok false⟩) ∧
    (∀ r, r.rc = 0 → json_loads r.stdout = none →
      validate_gpu_feature_discovery r =
        ⟨some ("gpu_feature_discovery",
          ⟨"failed", "Failed to parse JSON output from OpenShift",
           some (.jstr r.stdout)⟩), .ok false⟩) ∧
    (∀ ns r, r.rc ≠ 0 →
      validate_driver_daemonset ns r =
        ⟨some ("driver_daemonset",
          ⟨"failed", "Failed to get daemonsets from " ++ ns ++ " namespace",
           some (.jstr r.stderr)⟩), .ok false⟩) ∧
    (∀ ns r, r.rc = 0 → json_loads r.stdout = none →
      validate_driver_daemonset ns r =
        ⟨some ("driver_daemonset",
          ⟨"failed", "Failed to parse JSON output from OpenShift",
           some (.jstr r.stdout)⟩), .ok false⟩) ∧
    (∀ ns pn rPod rLogs, rPod.rc ≠ 0 →
      validate_gpu_workload ns pn rPod rLogs =
        ⟨some ("gpu_workload",
          ⟨"failed",
           "Failed to get pod " ++ pn ++ " in namespace " ++ ns,
           some (.jstr rPod.stderr)⟩), .ok false⟩) ∧
    (∀ ns pn rPod rLogs, rPod.rc = 0 → json_loads rPod.stdout = none →
      validate_gpu_workload ns pn rPod rLogs =
        ⟨some ("gpu_workload",
          ⟨"failed", "Failed to parse JSON output from OpenShift",
           some (.jstr rPod.stdout)⟩), .ok false⟩) ∧
    (∀ g n, g.createResp.rc ≠ 0 →
      validate_nvidia_smi_on_node g n =
        ⟨[.create],
         some ("nvidia_smi_" ++ n,
          ⟨"failed", "Failed to create debug pod on node " ++ n,
           some (.jstr g.createResp.stderr)⟩), .ok false⟩) := by
  refine ⟨fun r => ?_, fun ns r h => ?_, fun ns r h hp => ?_, fun ns r h => ?_,
    fun ns r h hp => ?_, fun r h => ?_, fun r h hp => ?_, fun r h => ?_,
    fun r h hp => ?_, fun ns r h => ?_, fun ns r h hp => ?_,
    fun ns pn rPod rLogs h => ?_, fun ns pn rPod rLogs h hp => ?_,
    fun g n h => ?_⟩
  · by_cases h : r.rc = 0 <;> simp [validate_oc_connection, h]
  · simp [validate_gpu_operator_installation, h]
  · simp [validate_gpu_operator_installation, h, hp]
  · simp [validate_gpu_operator_pods, h]
  · simp [validate_gpu_operator_pods, h, hp]
  · simp [validate_node_gpu_status, h]
  · simp [validate_node_gpu_status, h, hp]
  · simp [validate_gpu_feature_discovery, h]
  · simp [validate_gpu_feature_discovery, h, hp]
  · simp [validate_driver_daemonset, h]
  · simp [validate_driver_daemonset, h, hp]
  · simp [validate_gpu_workload, h]
  · simp [validate_gpu_workload, h, hp]
  · simp [validate_nvidia_smi_on_node, h]

/-- Witness for the amended C2: concrete failing and unparseable
responses are converted into recorded Failed results. -/
theorem c2_amended_witness :
    (1 : Int) ≠ 0 ∧ json_loads "not json" = none ∧
    validate_driver_daemonset "nvidia-gpu-operator" ⟨"", "boom", 1⟩ =
      ⟨some ("driver_daemonset",
        ⟨"failed", "Failed to get daemonsets from nvidia-gpu-operator namespace",
         some (.jstr "boom")⟩), .ok false⟩ ∧
    validate_gpu_operator_pods "nvidia-gpu-operator" ⟨"not json", "", 0⟩ =
      ⟨some ("gpu_operator_pods",
        ⟨"failed", "Failed to parse JSON output from OpenShift",
         some (.jstr "not json")⟩), .ok false⟩ :=
  ⟨by decide, by decide,
   c2_amended_gateway_error_conversion.2.2.2.2.2.2.2.2.2.1
     "nvidia-gpu-operator" ⟨"", "boom", 1⟩ (by decide),
   c2_amended_gateway_error_conversion.2.2.2.2.1
     "nvidia-gpu-operator" ⟨"not json", "", 0⟩ (by decide) (by decide)⟩

/-- C5 counterexample: the check grades on the two substrings alone.
With exit status 0 and output containing the banner and the literal
`Driver Version` but no version the pattern can extract, the result is
still Passed, with `driver_version` set to `"Unknown"` — contradicting
"Passed only if ... a driver-version token extractable by pattern
match". -/
theorem c5_passed_without_extractable_version :
    gNoVersion.execResp.rc = 0 ∧
    searchDriverVersion "NVIDIA-SMI Driver Version: N/A" = none ∧
    (validate_nvidia_smi_on_node gNoVersion "node1").write =
      some ("nvidia_smi_node1",
        ⟨"passed", "nvidia-smi is working on node node1",
         some (.jobj [("driver_version", .jstr "Unknown"),
                      ("gpu_info", .jarr [])])⟩) ∧
    (validate_nvidia_smi_on_node gNoVersion "node1").ret = .ok true := by
  decide

/-- C5 amended: after a successful create and a normally exiting poll
loop, the result is Passed exactly when the exec call returned exit
status 0 and its output contains both the banner token `NVIDIA-SMI`
and the literal `Driver Version`; `detail.driver_version` is then the
regex-extracted version when one exists and `"Unknown"` otherwise.  In
every other case the result is Failed with the raw stderr or stdout
retained in the detail. -/
theorem c5_amended_exec_grading (g : SmiGateway) (n : String)
    (hc : g.createResp.rc = 0) (hp : (pollLoop g 30 0).2 = .ok ()) :
    (g.execResp.rc ≠ 0 →
      (validate_nvidia_smi_on_node g n).write =
        some ("nvidia_smi_" ++ n,
          ⟨"failed", "nvidia-smi failed on node " ++ n,
           some (.jstr g.execResp.stderr)⟩) ∧
      (validate_nvidia_smi_on_node g n).ret = .ok false) ∧
    (g.execResp.rc = 0 →
      (strIn "NVIDIA-SMI" g.execResp.stdout &&
        strIn "Driver Version" g.execResp.stdout) = true →
      (validate_nvidia_smi_on_node g n).write =
        some ("nvidia_smi_" ++ n,
          ⟨"passed", "nvidia-smi is working on node " ++ n,
           some (.jobj [("driver_version",
                          .jstr ((searchDriverVersion g.execResp.stdout).getD
                            "Unknown")),
                        ("gpu_info", .jarr (gpuInfoLines g.execResp.stdout))])⟩) ∧
      (validate_nvidia_smi_on_node g n).ret = .ok true) ∧
    (g.execResp.rc = 0 →
      (strIn "NVIDIA-SMI" g.execResp.stdout &&
        strIn "Driver Version" g.execResp.stdout) = false →
      (validate_nvidia_smi_on_node g n).write =
        some ("nvidia_smi_" ++ n,
          ⟨"failed", "nvidia-smi output is not as expected on node " ++ n,
           some (.jstr g.execResp.stdout)⟩) ∧
      (validate_nvidia_smi_on_node g n).ret = .ok false) := by
  rcases hpl : pollLoop g 30 0 with ⟨pevs, pres⟩
  rw [hpl] at hp
  simp only at hp
  subst hp
  refine ⟨fun hex => ?_, fun hex hsub => ?_, fun hex hsub => ?_⟩
  · simp [validate_nvidia_smi_on_node, hc, hpl, hex]
  · simp [validate_nvidia_smi_on_node, hc, hpl, hex, hsub]
  · simp [validate_nvidia_smi_on_node, hc, hpl, hex, hsub]

/-- Witness for the amended C5: a healthy exec output carrying
version `535.104.05` yields Passed with that driver version in the
detail. -/
theorem c5_amended_witness :
    g535.createResp.rc = 0 ∧ pollLoop g535 30 0 = ([.poll 0], .ok ()) ∧
    g535.execResp.rc = 0 ∧
    (strIn "NVIDIA-SMI" smi535Stdout && strIn "Driver Version" smi535Stdout) =
      true ∧
    searchDriverVersion smi535Stdout = some "535.104.05" ∧
    (validate_nvidia_smi_on_node g535 "node1").write =
      some ("nvidia_smi_node1",
        ⟨"passed", "nvidia-smi is working on node node1",
         some (.jobj [("driver_version", .jstr "535.104.05"),
                      ("gpu_info",
                        .jarr [.jstr "| 30%   45C    P8    25W / 250W |   1000MiB / 11264MiB |"])])⟩) ∧
    (validate_nvidia_smi_on_node g535 "node1").ret = .ok true :=
  ⟨by decide, by decide, by decide, by decide, by decide,
   ((c5_amended_exec_grading g535 "node1" (by decide) (by decide)).2.1
      (by decide) (by decide)).1,
   ((c5_amended_exec_grading g535 "node1" (by decide) (by decide)).2.1
      (by decide) (by decide)).2⟩

/-- C6 counterexample: the "exec is still attempted" guarantee has an
escape: a phase query that returns exit status 0 with unparseable
stdout makes the unguarded `json.loads` raise, so the loop aborts and
the diagnostic exec is never attempted. -/
theorem c6_exec_skipped_on_unparseable_poll :
    (validate_nvidia_smi_on_node gBracePoll "node1").events =
      [.create, .poll 0] ∧
    SmiEvent.exec ∉ (validate_nvidia_smi_on_node gBracePoll "node1").events ∧
    (validate_nvidia_smi_on_node gBracePoll "node1").ret =
      .error .jsonDecodeError := by decide

/-- C6 amended: the polling loop performs at most 30 phase queries,
with the one-second sleep between consecutive attempts; it exits
immediately once a query reports phase `Running`; and whenever the
loop exits normally — including by exhausting its budget without ever
seeing `Running` — the exec call (followed by the delete call) is
still attempted.  A phase query whose exit status is 0 but whose
stdout fails to parse escapes this: the loop aborts with an exception
(see the counterexample). -/
theorem c6_amended_polling_budget :
    (∀ g n, ((validate_nvidia_smi_on_node g n).events.countP isPoll) ≤ 30) ∧
    (∀ g fuel i, (g.pollResp i).rc = 0 →
      pollPhase (g.pollResp i).stdout = .ok (.jstr "Running") →
      pollLoop g (fuel + 1) i = ([.poll i], .ok ())) ∧
    (∀ g n, g.createResp.rc = 0 → (pollLoop g 30 0).2 = .ok () →
      (validate_nvidia_smi_on_node g n).events =
        .create :: (pollLoop g 30 0).1 ++ [.exec, .delete]) ∧
    (∀ g fuel i, wellSpaced (pollLoop g fuel i).1 = true) := by
  refine ⟨fun g n => ?_, fun g fuel i h0 hph => ?_, fun g n hc hp => ?_,
    fun g fuel i => pollLoop_wellSpaced g fuel i⟩
  · unfold validate_nvidia_smi_on_node
    by_cases hc : g.createResp.rc = 0
    · have hcount := pollLoop_poll_count g 30 0
      rcases hpl : pollLoop g 30 0 with ⟨pevs, pres⟩
      rw [hpl] at hcount
      have hcount' : pevs.countP isPoll ≤ 30 := by simpa using hcount
      cases pres with
      | error e =>
          simp only [hc, ne_eq, not_true_eq_false, if_false, hpl]
          simpa [List.countP_cons, isPoll] using hcount'
      | ok u =>
          simp only [hc, ne_eq, not_true_eq_false, if_false, hpl]
          by_cases hex : g.execResp.rc = 0
          · simp only [hex, ne_eq, not_true_eq_false, if_false]
            split <;>
              simpa [List.countP_append, List.countP_cons, isPoll] using hcount'
          · simp only [hex, ne_eq, if_true, if_pos hex]
            simpa [hex, List.countP_append, List.countP_cons, isPoll] using
              hcount'
    · simp [hc, isPoll, List.countP, List.countP.go]
  · exact pollLoop_breaks_on_running g fuel i h0 hph
  · rcases hpl : pollLoop g 30 0 with ⟨pevs, pres⟩
    have hp' : pres = .ok () := by
      rw [hpl] at hp
      exact hp
    subst hp'
    unfold validate_nvidia_smi_on_node
    simp only [hc, ne_eq, not_true_eq_false, if_false, hpl]
    by_cases hex : g.execResp.rc = 0
    · simp only [hex, ne_eq, not_true_eq_false, if_false]
      split <;> rfl
    · simp [hex]

/-- Witness for the amended C6: with a first poll reporting `Running`,
the loop stops after one query and the exec and delete calls follow. -/
theorem c6_amended_witness :
    (gPollEarly.pollResp 0).rc = 0 ∧
    pollPhase (gPollEarly.pollResp 0).stdout = .ok (.jstr "Running") ∧
    pollLoop gPollEarly 30 0 = ([.poll 0], .ok ()) ∧
    (validate_nvidia_smi_on_node gPollEarly "node1").events =
      [.create, .poll 0, .exec, .delete] ∧
    ((validate_nvidia_smi_on_node gPollEarly "node1").events.countP isPoll) ≤
      30 :=
  ⟨by decide, by decide,
   c6_amended_polling_budget.2.1 gPollEarly 29 0 (by decide) (by decide),
   c6_amended_polling_budget.2.2.1 gPollEarly "node1" (by decide) (by decide),
   c6_amended_polling_budget.1 gPollEarly "node1"⟩

theorem except_bind_ok {ε α β : Type} (a : α) (f : α → Except ε β) :
    (Except.ok a >>= f) = f a := rfl

theorem except_bind_error {ε α β : Type} (e : ε) (f : α → Except ε β) :
    ((Except.error e : Except ε α) >>= f) = .error e := rfl

theorem findDriverDS_found :
    ∀ items ds, findDriverDS items = .ok (some ds) →
      ∃ md nm, ds.pyGet "metadata" (.jobj []) = .ok md ∧
        md.pyGet "name" (.jstr "") = .ok nm
  | [], ds, h => by simp [findDriverDS] at h
  | item :: rest, ds, h => by
      unfold findDriverDS at h
      cases h1 : item.pyGet "metadata" (.jobj []) with
      | error e => rw [h1, except_bind_error] at h; exact absurd h (by simp)
      | ok md =>
        rw [h1, except_bind_ok] at h
        cases h2 : md.pyGet "name" (.jstr "") with
        | error e => rw [h2, except_bind_error] at h; exact absurd h (by simp)
        | ok nm =>
          rw [h2, except_bind_ok] at h
          cases h3 : nm.asStr with
          | error e => rw [h3, except_bind_error] at h; exact absurd h (by simp)
          | ok nameS =>
            rw [h3, except_bind_ok] at h
            by_cases h4 : strIn "nvidia-driver" (pyLower nameS) = true
            · rw [if_pos h4] at h
              have hds : item = ds := by
                have := h
                simp at this
                exact this
              exact hds ▸ ⟨md, nm, h1, h2⟩
            · rw [if_neg h4] at h
              exact findDriverDS_found rest ds h

/-- C4: the readiness thresholds of the driver daemon-set probe.  For a
successfully parsed collection whose first daemon set with
`nvidia-driver` in its name reports integer counters `desired = d` and
`ready = rdy`: `rdy < d` gives Failed, `rdy = d > 0` gives Passed, and
`d = 0` gives Failed. -/
theorem c4_daemonset_readiness_thresholds (ns : String) (r : Resp)
    (root itemsJ cjv ds : JVal) (items : List JVal) (d rdy : Int)
    (hrc : r.rc = 0) (hp : json_loads r.stdout = some root)
    (hi : root.pyGet "items" (.jarr []) = .ok itemsJ)
    (hl : itemsJ.pyIter = .ok items)
    (hf : findDriverDS items = .ok (some ds))
    (hcnt : dsCounts ds = .ok (.jnum d, cjv, .jnum rdy)) :
    (rdy < d →
      ((validate_driver_daemonset ns r).write.map (fun p => p.2.status)) =
        some "failed") ∧
    (rdy = d → 0 < d →
      ((validate_driver_daemonset ns r).write.map (fun p => p.2.status)) =
        some "passed") ∧
    (d = 0 →
      ((validate_driver_daemonset ns r).write.map (fun p => p.2.status)) =
        some "failed") := by
  obtain ⟨md, nm, hmd, hnm⟩ := findDriverDS_found items ds hf
  have hw : validate_driver_daemonset ns r =
      runBody "driver_daemonset" (do
        let itemsJ ← root.pyGet "items" (.jarr [])
        let daemonsets ← itemsJ.pyIter
        match ← findDriverDS daemonsets with
        | none =>
            .ok (⟨"failed", "NVIDIA driver daemonset not found", none⟩, false)
        | some ds => do
            let (d, c, rdy) ← dsCounts ds
            if d.eqInt 0 then
              .ok (⟨"failed",
                    "NVIDIA driver daemonset exists but is not scheduled on any nodes",
                    none⟩, false)
            else do
              let md ← ds.pyGet "metadata" (.jobj [])
              let dsName ← md.pyGet "name" (.jstr "")
              let notReady ← rdy.pyLt d
              if notReady then
                .ok (⟨"failed",
                      "NVIDIA driver daemonset not fully ready: " ++
                        pyStr rdy ++ "/" ++ pyStr d ++ " ready",
                      some (.jobj [("name", dsName), ("desired", d),
                                   ("current", c), ("ready", rdy)])⟩, false)
              else
                .ok (⟨"passed",
                      "NVIDIA driver daemonset is running properly: " ++
                        pyStr rdy ++ "/" ++ pyStr d ++ " ready",
                      some (.jobj [("name", dsName), ("desired", d),
                                   ("current", c), ("ready", rdy)])⟩, true)) := by
    unfold validate_driver_daemonset
    simp only [hrc, ne_eq, not_true_eq_false, if_false, hp]
  rw [hw, hi, except_bind_ok, hl, except_bind_ok, hf, except_bind_ok]
  simp only [hcnt, except_bind_ok]
  by_cases hd0 : d = 0
  · subst hd0
    simp only [JVal.eqInt, decide_True, if_true, runBody]
    refine ⟨fun _ => rfl, fun _ h0 => absurd h0 (by omega), fun _ => rfl⟩
  · have : (JVal.jnum d).eqInt 0 = false := by
      simp [JVal.eqInt, hd0]
    rw [this]
    simp only [Bool.false_eq_true, if_false]
    rw [hmd, except_bind_ok, hnm, except_bind_ok]
    simp only [JVal.pyLt, except_bind_ok]
    by_cases hlt : rdy < d
    · simp only [hlt, decide_True, if_true, runBody]
      exact ⟨fun _ => rfl, fun he _ => absurd hlt (by omega), fun h0 => absurd h0 hd0⟩
    · simp only [hlt, decide_False, if_false, runBody]
      exact ⟨fun hl2 => hl2.elim, fun _ _ => rfl, fun h0 => absurd h0 hd0⟩

set_option maxRecDepth 10000 in
/-- Witness for C4 at the scenario-C input: desired 2, ready 1 gives a
Failed entry whose message carries "1/2". -/
theorem c4_daemonset_readiness_witness :
    (1 : Int) < 2 ∧
    (validate_driver_daemonset "nvidia-gpu-operator" respDs21).write =
      some ("driver_daemonset",
        ⟨"failed", "NVIDIA driver daemonset not fully ready: 1/2 ready",
         some (.jobj [("name", .jstr "nvidia-driver-daemonset"),
                      ("desired", .jnum 2), ("current", .jnum 2),
                      ("ready", .jnum 1)])⟩) ∧
    ((validate_driver_daemonset "nvidia-gpu-operator" respDs21).write.map
        (fun p => p.2.status)) = some "failed" ∧
    strIn "1/2"
      "NVIDIA driver daemonset not fully ready: 1/2 ready" = true :=
  ⟨by decide, by decide,
   (c4_daemonset_readiness_thresholds "nvidia-gpu-operator" respDs21
      (.jobj [("items", .jarr [ds21Node])]) (.jarr [ds21Node]) (.jnum 2)
      ds21Node [ds21Node] 2 1 (by decide) (by decide) (by decide) (by decide)
      (by decide) (by decide)).1 (by decide),
   by decide⟩

theorem collectLabelNodes_cons_zero (node : JVal) (rest : List JVal)
    (nm labels : JVal) (hpre : nodePrelude node = .ok (nm, labels))
    (h0 : capOf node = .ok 0) :
    collectLabelNodes (node :: rest) = collectLabelNodes rest := by
  conv_lhs => rw [collectLabelNodes]
  simp only [hpre, h0, except_bind_ok, if_true]

theorem collectLabelNodes_filter :
    ∀ nodes : List JVal, (∀ n ∈ nodes, ∃ p, nodePrelude n = .ok p) →
      collectLabelNodes nodes =
        collectLabelNodes
          (nodes.filter (fun n => decide (capOf n ≠ Except.ok 0)))
  | [], _ => rfl
  | node :: rest, h => by
      obtain ⟨⟨nm, labels⟩, hpre⟩ := h node (List.mem_cons_self node rest)
      have hrest : ∀ n ∈ rest, ∃ p, nodePrelude n = .ok p :=
        fun n hn => h n (List.mem_cons_of_mem node hn)
      have ih := collectLabelNodes_filter rest hrest
      rw [List.filter_cons]
      by_cases h0 : capOf node = Except.ok 0
      · have hdec : (decide (capOf node ≠ Except.ok 0)) = false := by
          simp [h0]
        rw [hdec]
        simp only [Bool.false_eq_true, if_false]
        rw [collectLabelNodes_cons_zero node rest nm labels hpre h0]
        exact ih
      · have hdec : (decide (capOf node ≠ Except.ok 0)) = true := by
          simp [h0]
        rw [hdec]
        simp only [if_true]
        cases hcap : capOf node with
        | error e =>
            unfold collectLabelNodes
            simp only [hpre, hcap, except_bind_ok, except_bind_error]
        | ok k =>
            have hk : ¬(k = 0) := fun hk0 => h0 (by rw [hcap, hk0])
            unfold collectLabelNodes
            simp only [hpre, hcap, except_bind_ok, hk, if_false, if_neg hk]
            cases hcl : checkLabels labels expected_labels with
            | error e => simp only [hcl, except_bind_error]
            | ok glml =>
                simp only [hcl, except_bind_ok]
                rw [ih]

/-- C7 counterexample: a node whose accelerator capacity is the
negative string `"-1"` — hence not `> 0` — is still examined by the
label-completeness probe and lands in the missing-labels list, because
the source only skips nodes whose capacity converts to exactly 0. -/
theorem c7_negative_capacity_node_examined :
    capOf negCapacityNode = .ok (-1) ∧
    json_loads respNegCapacity.stdout =
      some (.jobj [("items", .jarr [negCapacityNode])]) ∧
    (validate_gpu_feature_discovery respNegCapacity).write =
      some ("gpu_feature_discovery",
        ⟨"failed", "Found 1 nodes with missing GPU feature labels",
         some (.jobj [("nodes_with_complete_labels", .jarr []),
                      ("nodes_with_missing_labels",
                        .jarr [.jobj [("name", .jstr "n1"),
                          ("missing_labels",
                            .jarr (expected_labels.map .jstr)),
                          ("existing_gpu_labels", .jobj [])]])])⟩) := by
  decide

/-- C7 amended: a node whose capacity converts to the integer 0
contributes to neither the complete-labels list nor the missing-labels
list — the loop output over an inventory equals the output over the
inventory with the zero-capacity nodes removed — and exactly the nodes
with nonzero (not only positive) capacity are examined.  When the
missing list is nonempty the probe records it, with both lists in the
detail. -/
theorem c7_amended_zero_capacity_excluded :
    (∀ node rest nm labels, nodePrelude node = .ok (nm, labels) →
      capOf node = .ok 0 →
      collectLabelNodes (node :: rest) = collectLabelNodes rest) ∧
    (∀ nodes, (∀ n ∈ nodes, ∃ p, nodePrelude n = .ok p) →
      collectLabelNodes nodes =
        collectLabelNodes
          (nodes.filter (fun n => decide (capOf n ≠ Except.ok 0)))) ∧
    (∀ r root itemsJ nodes ws ms, r.rc = 0 →
      json_loads r.stdout = some root →
      root.pyGet "items" (.jarr []) = .ok itemsJ →
      itemsJ.pyIter = .ok nodes →
      collectLabelNodes nodes = .ok (ws, ms) → ms ≠ [] →
      (validate_gpu_feature_discovery r).write =
        some ("gpu_feature_discovery",
          ⟨"failed",
           "Found " ++ toString ms.length ++
             " nodes with missing GPU feature labels",
           some (.jobj [("nodes_with_complete_labels", .jarr ws),
                        ("nodes_with_missing_labels", .jarr ms)])⟩)) := by
  refine ⟨fun node rest nm labels hpre h0 =>
      collectLabelNodes_cons_zero node rest nm labels hpre h0,
    fun nodes h => collectLabelNodes_filter nodes h,
    fun r root itemsJ nodes ws ms hrc hp hi hl hms hne => ?_⟩
  unfold validate_gpu_feature_discovery
  simp only [hrc, ne_eq, not_true_eq_false, if_false, hp]
  have hemp : ms.isEmpty = false := by
    cases ms with
    | nil => exact absurd rfl hne
    | cons a l => rfl
  simp only [runBody, hi, hl, hms, except_bind_ok, hemp]
  simp

/-- Witness for the amended C7: a zero-capacity node drops out of the
loop, an inventory of one such node filters to the empty inventory,
and a probe input with one missing-label node records both lists. -/
theorem c7_amended_witness :
    nodePrelude (.jobj [("metadata", .jobj []),
        ("status", .jobj [("capacity", .jobj [])])]) =
      .ok (.jstr "unknown", .jobj []) ∧
    capOf (.jobj [("metadata", .jobj []),
        ("status", .jobj [("capacity", .jobj [])])]) = .ok 0 ∧
    collectLabelNodes [.jobj [("metadata", .jobj []),
        ("status", .jobj [("capacity", .jobj [])])]] = collectLabelNodes [] ∧
    collectLabelNodes [negCapacityNode] = .ok ([],
      [.jobj [("name", .jstr "n1"),
              ("missing_labels", .jarr (expected_labels.map .jstr)),
              ("existing_gpu_labels", .jobj [])]]) ∧
    (validate_gpu_feature_discovery respNegCapacity).write =
      some ("gpu_feature_discovery",
        ⟨"failed", "Found 1 nodes with missing GPU feature labels",
         some (.jobj [("nodes_with_complete_labels", .jarr []),
                      ("nodes_with_missing_labels",
                        .jarr [.jobj [("name", .jstr "n1"),
                          ("missing_labels",
                            .jarr (expected_labels.map .jstr)),
                          ("existing_gpu_labels", .jobj [])]])])⟩) :=
  ⟨by decide, by decide,
   c7_amended_zero_capacity_excluded.1
     (.jobj [("metadata", .jobj []), ("status", .jobj [("capacity", .jobj [])])])
     [] (.jstr "unknown") (.jobj []) (by decide) (by decide),
   by decide,
   c7_amended_zero_capacity_excluded.2.2 respNegCapacity
     (.jobj [("items", .jarr [negCapacityNode])]) (.jarr [negCapacityNode])
     [negCapacityNode] []
     [.jobj [("name", .jstr "n1"),
             ("missing_labels", .jarr (expected_labels.map .jstr)),
             ("existing_gpu_labels", .jobj [])]]
     (by decide) (by decide) (by decide) (by decide) (by decide) (by decide)⟩

theorem collectProblematic_exists_bad :
    ∀ pods p probs, collectProblematic pods = .ok (p :: probs) →
      ∃ pod ∈ pods, ∃ ph, podPhase pod = .ok ph ∧ ph.eqStr "Running" = false
  | [], p, probs, h => by simp [collectProblematic] at h
  | pod :: rest, p, probs, h => by
      unfold collectProblematic at h
      cases h1 : pod.pyGet "metadata" (.jobj []) with
      | error e => rw [h1, except_bind_error] at h; exact absurd h (by simp)
      | ok md =>
        rw [h1, except_bind_ok] at h
        cases h2 : md.pyGet "name" (.jstr "unknown") with
        | error e => rw [h2, except_bind_error] at h; exact absurd h (by simp)
        | ok nm =>
          rw [h2, except_bind_ok] at h
          cases h3 : pod.pyGet "status" (.jobj []) with
          | error e => rw [h3, except_bind_error] at h; exact absurd h (by simp)
          | ok st =>
            rw [h3, except_bind_ok] at h
            cases h4 : st.pyGet "phase" (.jstr "Unknown") with
            | error e =>
                rw [h4, except_bind_error] at h; exact absurd h (by simp)
            | ok ph =>
              rw [h4, except_bind_ok] at h
              have hph : podPhase pod = .ok ph := by
                unfold podPhase
                rw [h3, except_bind_ok, h4]
              by_cases h5 : ph.eqStr "Running" = true
              · rw [if_pos h5] at h
                obtain ⟨pod', hmem, hbad⟩ :=
                  collectProblematic_exists_bad rest p probs h
                exact ⟨pod', List.mem_cons_of_mem pod hmem, hbad⟩
              · have h5' : ph.eqStr "Running" = false := by
                  cases hb : ph.eqStr "Running" with
                  | true => exact absurd hb h5
                  | false => rfl
                exact ⟨pod, List.mem_cons_self pod rest, ph, hph, h5'⟩

/-- C10: the operator-pods probe on an empty pod collection.  An empty
collection records Passed ("all pods running" holds vacuously) and the
probe returns true; under a successful query and parse, a Failed entry
implies some pod whose phase is not `Running`. -/
theorem c10_pods_empty_collection_passes :
    (∀ ns r root itemsJ, r.rc = 0 → json_loads r.stdout = some root →
      root.pyGet "items" (.jarr []) = .ok itemsJ → itemsJ.pyIter = .ok [] →
      validate_gpu_operator_pods ns r =
        ⟨some ("gpu_operator_pods",
          ⟨"passed", "All pods in " ++ ns ++ " namespace are running", none⟩),
         .ok true⟩) ∧
    (∀ ns r root itemsJ pods probs v, r.rc = 0 →
      json_loads r.stdout = some root →
      root.pyGet "items" (.jarr []) = .ok itemsJ → itemsJ.pyIter = .ok pods →
      collectProblematic pods = .ok probs →
      (validate_gpu_operator_pods ns r).write =
        some ("gpu_operator_pods", v) →
      v.status = "failed" →
      ∃ pod ∈ pods, ∃ ph, podPhase pod = .ok ph ∧
        ph.eqStr "Running" = false) := by
  constructor
  · intro ns r root itemsJ hrc hp hi hl
    unfold validate_gpu_operator_pods
    simp only [hrc, ne_eq, not_true_eq_false, if_false, hp]
    simp only [runBody, hi, hl, except_bind_ok]
    simp [collectProblematic, except_bind_ok]
  · intro ns r root itemsJ pods probs v hrc hp hi hl hprob hw hst
    cases probs with
    | cons p rest => exact collectProblematic_exists_bad pods p rest hprob
    | nil =>
      exfalso
      have : validate_gpu_operator_pods ns r =
          ⟨some ("gpu_operator_pods",
            ⟨"passed", "All pods in " ++ ns ++ " namespace are running",
             none⟩), .ok true⟩ := by
        unfold validate_gpu_operator_pods
        simp only [hrc, ne_eq, not_true_eq_false, if_false, hp]
        simp only [runBody, hi, hl, hprob, except_bind_ok]
        simp
      rw [this] at hw
      simp only [Option.some.injEq, Prod.mk.injEq] at hw
      rw [← hw.2] at hst
      exact absurd hst (by simp)

/-- Witness for C10: an empty pod collection passes, and a collection
with one Pending pod that makes the probe record Failed contains a
non-Running pod. -/
theorem c10_pods_empty_collection_witness :
    validate_gpu_operator_pods "nvidia-gpu-operator" respNoPods =
      ⟨some ("gpu_operator_pods",
        ⟨"passed", "All pods in nvidia-gpu-operator namespace are running",
         none⟩), .ok true⟩ ∧
    (validate_gpu_operator_pods "nvidia-gpu-operator"
        respOnePendingPod).write =
      some ("gpu_operator_pods",
        ⟨"failed", "Found 1 problematic pods",
         some (.jarr [.jobj [("name", .jstr "p1"),
                             ("phase", .jstr "Pending"),
                             ("reasons", .jarr [])]])⟩) ∧
    (∃ pod ∈ [pendingPodVal], ∃ ph, podPhase pod = .ok ph ∧
      ph.eqStr "Running" = false) :=
  ⟨c10_pods_empty_collection_passes.1 "nvidia-gpu-operator" respNoPods
     (.jobj [("items", .jarr [])]) (.jarr []) (by decide) (by decide)
     (by decide) (by decide),
   by decide,
   c10_pods_empty_collection_passes.2 "nvidia-gpu-operator" respOnePendingPod
     (.jobj [("items", .jarr [pendingPodVal])]) (.jarr [pendingPodVal])
     [pendingPodVal]
     [.jobj [("name", .jstr "p1"), ("phase", .jstr "Pending"),
             ("reasons", .jarr [])]]
     ⟨"failed", "Found 1 problematic pods",
      some (.jarr [.jobj [("name", .jstr "p1"), ("phase", .jstr "Pending"),
                          ("reasons", .jarr [])]])⟩
     (by decide) (by decide) (by decide) (by decide) (by decide) (by decide)
     (by decide)⟩
